import Mathlib

set_option linter.unusedVariables false

/-!
Shallow embedding of the cross-marketplace inventory and order
reconciliation core of the HALLYUSTORE_BUNJANG_K-POP middleware
(src/services/inventoryService.js, src/services/orderService.js and the
webhook routes that call them).

Remote gateways (Shopify GraphQL, Bunjang REST) are modelled as explicit
environment records; the mutable world (the product-mapping store and the
storefront's per-variant inventory levels / order tags / order metafields)
is threaded as explicit state.  Fallible remote calls are modelled with
`Except`; machine numbers are `Nat`/`Int` (quantities may be negative on
the storefront side, so inventory levels are `Int`).
-/

/-- The designated BunJang Warehouse location
(`BUNJANG_WAREHOUSE_GID` in src/services/inventoryService.js). -/
def BUNJANG_WAREHOUSE_GID : String := "gid://shopify/Location/82604261625"

/-- One document of the `SyncedProduct` mapping store: the durable
association between a Bunjang listing and a Shopify product.  Only the
fields the reconciliation core reads or writes are modelled. -/
structure SyncedRec where
  shopifyGid : String
  shopifyDataId : String
  bunjangPid : Option String
  syncStatus : String
  bunjangQuantity : Option Int
  lastInventorySyncAt : Option Nat
deriving DecidableEq, Repr

/-- The storefront's view of the (first) variant of a product: whether
inventory tracking is enabled and the on-hand level at each location. -/
structure VariantState where
  tracked : Bool
  levels : List (String × Int)
deriving DecidableEq, Repr

/-- Read the on-hand quantity of a variant at a location (the
`inventoryLevels` read in the final-verification query). -/
def getLevel (v : VariantState) (loc : String) : Option Int :=
  (v.levels.find? (fun p => p.1 == loc)).map Prod.snd

/-- Effect of a set-on-hand-quantity / direct inventory update at one
location: existing levels at that location are overwritten, others kept. -/
def setLevelQ (v : VariantState) (loc : String) (q : Int) : VariantState :=
  { v with levels := v.levels.map (fun p => if p.1 == loc then (p.1, q) else p) }

/-- Effect of `activateInventoryAtLocation`: provision the inventory item
at the location (level 0) if it is not stocked there yet. -/
def activateAt (v : VariantState) (loc : String) : VariantState :=
  if (v.levels.find? (fun p => p.1 == loc)).isSome then v
  else { v with levels := v.levels ++ [(loc, 0)] }

/-- The mutable world seen by the inventory service: the mapping store
and the storefront variants, keyed by the product's Shopify GID. -/
structure InvState where
  db : List SyncedRec
  variants : List (String × VariantState)
deriving DecidableEq, Repr

/-- Environment of one inventory-sync attempt: the `userErrors` list the
storefront returns for the `inventorySetOnHandQuantities` mutation,
whether that mutation has taken effect by the time of the re-read
(eventual consistency of the storefront backend), and the clock. -/
structure InvEnv where
  setUserErrors : List String
  setTakesEffect : Bool
  now : Nat

/-- Look up a mapping by Bunjang PID (`SyncedProduct.findOne({ bunjangPid })`). -/
def findByBunjangPid (db : List SyncedRec) (pid : String) : Option SyncedRec :=
  db.find? (fun r => r.bunjangPid == some pid)

/-- Effect of the tracking pre-step: if inventory tracking is disabled on
the item, `enableInventoryTracking` is called first. -/
def ensureTracked (v : VariantState) : VariantState :=
  if v.tracked then v else { v with tracked := true }

/-- Effect of the `inventorySetOnHandQuantities` mutation when it reports
no `userErrors`: it pins the warehouse level to 1 once the storefront
backend has applied it (`takesEffect`), and is not yet visible otherwise
(the eventual-consistency window the final verification guards against). -/
def applySet (takesEffect : Bool) (v : VariantState) : VariantState :=
  if takesEffect then setLevelQ v BUNJANG_WAREHOUSE_GID 1 else v

/-- The final-verification step of the sync: re-read the warehouse level
and, if it is not the normalised quantity 1, issue the single corrective
`updateInventoryLevel(_, _, 1)` call. -/
def forceWarehouseOne (v : VariantState) : VariantState :=
  match getLevel v BUNJANG_WAREHOUSE_GID with
  | some q => if q == 1 then v else setLevelQ v BUNJANG_WAREHOUSE_GID 1
  | none => v

/-- `syncBunjangInventoryToShopify(bunjangPid, bunjangQuantity)` of
src/services/inventoryService.js.  Returns the updated world plus the
JS function's outcome: `.ok b` for a normal return of `b`, `.error` for a
thrown exception (a non-empty `userErrors` list).  Note that the
`bunjangQuantity` argument is never read: the quantity is normalised to 1
("Bunjang is a single-stock system").  Mutations issued before a throw
(tracking enablement, warehouse activation) persist in the returned
state, as they do on the real storefront. -/
def syncBunjangInventoryToShopify (env : InvEnv) (bunjangPid : String)
    (bunjangQuantity : Int) (st : InvState) : InvState × Except String Bool :=
  match findByBunjangPid st.db bunjangPid with
  | none => (st, .ok false)
  | some sp =>
    if sp.shopifyGid == "" then (st, .ok false)
    else
      let normalizedQuantity : Int := 1
      match (st.variants.find? (fun p => p.1 == sp.shopifyGid)).map Prod.snd with
      | none => (st, .ok false)
      | some variant =>
        let v1 := ensureTracked variant
        let v2 := activateAt v1 BUNJANG_WAREHOUSE_GID
        let writeBack := fun (v : VariantState) =>
          { st with variants :=
              st.variants.map (fun p => if p.1 == sp.shopifyGid then (p.1, v) else p) }
        if env.setUserErrors.isEmpty then
          let v3 := applySet env.setTakesEffect v2
          let v4 := forceWarehouseOne v3
          let st' := writeBack v4
          let db' := st'.db.map (fun r =>
            if r.bunjangPid == some bunjangPid then
              { r with bunjangQuantity := some normalizedQuantity,
                       lastInventorySyncAt := some env.now }
            else r)
          ({ st' with db := db' }, .ok true)
        else
          (writeBack v2, .error "Failed to set inventory")

/-- `deleteProductIfOutOfStock(bunjangPid, shopifyGid)` of
src/services/inventoryService.js: deletion is a policy no-op — it only
re-asserts quantity 1 through the sync primitive and returns `false`. -/
def deleteProductIfOutOfStock (env : InvEnv) (bunjangPid : String)
    (shopifyGid : String) (st : InvState) : InvState × Except String Bool :=
  match syncBunjangInventoryToShopify env bunjangPid 1 st with
  | (st', .error e) => (st', .error e)
  | (st', .ok _) => (st', .ok false)

/-- Accumulated counters of `performFullInventorySync`, plus a count of
the rate-limiting pauses it issued (`delays`). -/
structure FullSyncResults where
  totalProducts : Nat
  synced : Nat
  failed : Nat
  skipped : Nat
  delays : Nat
deriving DecidableEq, Repr

/-- One iteration of the `performFullInventorySync` loop: run the sync,
bump the matching counter, then pause iff the cumulative count of
successful syncs is even (`if (results.synced % 2 === 0)` in the source). -/
def fullSyncStep (env : InvEnv) (acc : FullSyncResults × InvState)
    (p : SyncedRec) : FullSyncResults × InvState :=
  let res := acc.1
  let st := acc.2
  let next :=
    match p.bunjangPid with
    | none => (res, st)
    | some pid =>
      match syncBunjangInventoryToShopify env pid 1 st with
      | (st', .ok true) => ({ res with synced := res.synced + 1 }, st')
      | (st', .ok false) => ({ res with skipped := res.skipped + 1 }, st')
      | (st', .error _) => ({ res with failed := res.failed + 1 }, st')
  if next.1.synced % 2 == 0 then
    ({ next.1 with delays := next.1.delays + 1 }, next.2)
  else next

/-- `performFullInventorySync(jobId)` of src/services/inventoryService.js:
iterate over at most 1000 mappings with `syncStatus = 'SYNCED'` and a
present `bunjangPid`, syncing each to quantity 1 with the pacing rule of
`fullSyncStep`. -/
def performFullInventorySync (env : InvEnv) (st : InvState) :
    FullSyncResults × InvState :=
  let syncedProducts :=
    (st.db.filter (fun r => r.syncStatus == "SYNCED" && r.bunjangPid.isSome)).take 1000
  let init : FullSyncResults :=
    { totalProducts := syncedProducts.length, synced := 0, failed := 0,
      skipped := 0, delays := 0 }
  syncedProducts.foldl (fullSyncStep env) (init, st)

/-! ## Order reconciliation engine (src/services/orderService.js) -/

/-- A line item of a Shopify order webhook payload. -/
structure LineItem where
  product_id : Nat
  quantity : Nat
deriving DecidableEq, Repr

/-- The part of a Shopify order payload the engine reads.  A REST id of 0
or an empty GID model the missing/falsy fields checked by validation. -/
structure ShopifyOrder where
  id : Nat
  admin_graphql_api_id : String
  line_items : List LineItem
deriving DecidableEq, Repr

/-- Live Bunjang product detail (`getBunjangProductDetails`), with the
optional numeric fields the source defaults with `|| 0`. -/
structure BunjangDetails where
  price : Option Nat
  quantity : Option Nat
  shippingFee : Option Nat
deriving DecidableEq, Repr

/-- A Bunjang order-creation API failure, carrying the optional
`errorCode` of the error response body. -/
structure BunjangApiError where
  errorCode : Option String
deriving DecidableEq, Repr

/-- The payload of a `createBunjangOrderV2` call: `parseInt(bunjangPid)`
(modelled as `parsePid`), the live price, and the shipping fee
forced to 0 by policy. -/
structure CreatePayload where
  productId : Option Nat
  price : Nat
  deliveryPrice : Nat
deriving DecidableEq, Repr

/-- Shopify product info returned by the tag query used for auto-linking. -/
structure ProductInfo where
  title : String
  handle : String
  tags : List String
deriving DecidableEq, Repr

/-- Result object of `processShopifyOrderForBunjang`.  Fields absent from
a given JS return object take their defaults. -/
structure ProcResult where
  success : Bool
  alreadyProcessed : Bool := false
  bunjangOrderIds : List String := []
  message : Option String := none
deriving DecidableEq, Repr

/-- Errors `processShopifyOrderForBunjang` can throw: only the
input-validation failure. -/
inductive OrderProcError where
  | validation (msg : String)
deriving DecidableEq, Repr

/-- Environment of one order-reconciliation run: the remote responses and
configuration the engine consults.  `metafieldReadFails` models a thrown
(and caught) `getOrderMetafield` pre-check read. -/
structure OrderEnv where
  orderIdentifierPrefix : String
  lowBalanceThreshold : Nat
  metafieldReadFails : Bool
  productTags : Nat → Except String (Option ProductInfo)
  getDetails : String → Except String (Option BunjangDetails)
  createOrder : CreatePayload → Except BunjangApiError (Option String)
  pointBalance : Except String (Option Nat)
  now : String

/-- The storefront order's own mutable annotations: its tags and the
`bunjang` namespace metafields the engine writes (`order_ids` holds the
JSON-encoded id list, modelled by its parsed content). -/
structure ShopOrderState where
  tags : List String
  orderIdsMetafield : Option (List String)
  orderCreatedAtMetafield : Option String
deriving DecidableEq, Repr

/-- The mutable world threaded through order processing: the mapping
store, the storefront order being annotated, the trace of remote
order-creation calls issued, and a count of CRITICAL-severity log lines
(the insufficient-points alert). -/
structure OrderProcState where
  db : List SyncedRec
  shopOrder : ShopOrderState
  createCalls : List CreatePayload
  criticalLogs : Nat
deriving DecidableEq, Repr

/-- `updateOrder({id, tags})`: Shopify tag updates are additive merges. -/
def addTags (st : OrderProcState) (ts : List String) : OrderProcState :=
  { st with shopOrder := { st.shopOrder with tags := st.shopOrder.tags ++ ts } }

/-- The `SyncedProduct.findOne({$or: [...]})` lookup used to resolve a
line item's Shopify product to a mapping: by derived GID, or by the
stored numeric id (number and string collapse to one comparison here). -/
def findSyncedByShopifyProduct (db : List SyncedRec) (productId : Nat) : Option SyncedRec :=
  db.find? (fun r =>
    r.shopifyGid == "gid://shopify/Product/" ++ toString productId ||
    r.shopifyDataId == toString productId)

/-- `parseInt(bunjangPid)` on a decimal PID string, as a structural
digit-wise parse; a non-numeric string yields `none` (parseInt's NaN). -/
def parsePid (s : String) : Option Nat :=
  s.data.foldl (fun acc c =>
    match acc with
    | none => none
    | some n => if c.isDigit then some (n * 10 + (c.toNat - 48)) else none) (some 0)

/-- Extract the PID from a `bunjang_pid:<id>` tag (`tag.split(':')[1].trim()`). -/
def pidOfTag (tag : String) : String :=
  (((tag.splitOn ":").getD 1 "").trim)

/-- The error-code classification of a failed `createBunjangOrderV2`
call (the `switch (errorCode)` block of the source): the resulting
per-item error tag. -/
def classifyBunjangOrderError (pid : String) (errorCode : Option String) : String :=
  match errorCode with
  | some "PRODUCT_NOT_FOUND" => "PID-" ++ pid ++ "-NotAvailable"
  | some "PRODUCT_SOLD_OUT" => "PID-" ++ pid ++ "-NotAvailable"
  | some "PRODUCT_ON_HOLD" => "PID-" ++ pid ++ "-NotAvailable"
  | some "INVALID_PRODUCT_PRICE" => "PID-" ++ pid ++ "-PriceChanged"
  | some "POINT_SHORTAGE" => "PID-" ++ pid ++ "-InsufficientPoints"
  | _ => "PID-" ++ pid ++ "-CreateFail"

/-- Auto-link step for an unresolved line item: fetch the Shopify
product's tags and, if a `bunjang_pid:` tag exists, create a new
`SYNCED` mapping.  A fetch error is caught and logged only. -/
def autoLink (env : OrderEnv) (productId : Nat) (st : OrderProcState) :
    OrderProcState × Option SyncedRec :=
  match env.productTags productId with
  | .error _ => (st, none)
  | .ok none => (st, none)
  | .ok (some info) =>
    match info.tags.find? (fun t => t.startsWith "bunjang_pid:") with
    | none => (st, none)
    | some tag =>
      let newRec : SyncedRec :=
        { shopifyGid := "gid://shopify/Product/" ++ toString productId
          shopifyDataId := toString productId
          bunjangPid := some (pidOfTag tag)
          syncStatus := "SYNCED"
          bunjangQuantity := none
          lastInventorySyncAt := none }
      ({ st with db := st.db ++ [newRec] }, some newRec)

/-- The body of the per-line-item loop of `processShopifyOrderForBunjang`:
resolve (or auto-link) the mapping, fetch live Bunjang detail, check
stock, place the remote order, and tag/record the outcome.  Failures are
tagged and the accumulator is returned normally — the step never throws,
mirroring the source's try/catch around the item body. -/
def processLineItem (env : OrderEnv) (shopifyOrderId : Nat) (item : LineItem)
    (st : OrderProcState) (createdIds : List String) :
    OrderProcState × List String :=
  let identifier := env.orderIdentifierPrefix ++ toString shopifyOrderId
  let productId := item.product_id
  let resolved :=
    match findSyncedByShopifyProduct st.db productId with
    | some r => (st, some r)
    | none => autoLink env productId st
  let st := resolved.1
  match resolved.2 with
  | none => (st, createdIds)
  | some r =>
    match r.bunjangPid with
    | none => (st, createdIds)
    | some pid =>
      match env.getDetails pid with
      | .error _ =>
        (addTags st [identifier ++ "_Error", "PID-" ++ pid ++ "-Exception"], createdIds)
      | .ok none =>
        (addTags st [identifier ++ "_Error", "PID-" ++ pid ++ "-NotFound"], createdIds)
      | .ok (some details) =>
        let availableQuantity := details.quantity.getD 0
        if availableQuantity < item.quantity then
          (addTags st [identifier ++ "_Error", "PID-" ++ pid ++ "-InsufficientStock"], createdIds)
        else
          let payload : CreatePayload :=
            { productId := parsePid pid, price := details.price.getD 0, deliveryPrice := 0 }
          let st := { st with createCalls := st.createCalls ++ [payload] }
          match env.createOrder payload with
          | .ok (some bunjangOrderId) =>
            let st := addTags st ["BunjangOrder-" ++ bunjangOrderId]
            let st :=
              match env.pointBalance with
              | .error _ => st
              | .ok none => st
              | .ok (some balance) =>
                if balance < env.lowBalanceThreshold then addTags st ["LowPointBalance"] else st
            (st, createdIds ++ [bunjangOrderId])
          | .ok none =>
            (addTags st [identifier ++ "_Error", "PID-" ++ pid ++ "-NoOrderId"], createdIds)
          | .error apiError =>
            let st :=
              if apiError.errorCode == some "POINT_SHORTAGE" then
                { st with criticalLogs := st.criticalLogs + 1 }
              else st
            (addTags st [identifier ++ "_Error", classifyBunjangOrderError pid apiError.errorCode],
             createdIds)

/-- `processShopifyOrderForBunjang(shopifyOrder, jobId)` of
src/services/orderService.js: validate the payload, consult the
idempotency metafield, process every line item independently, then
persist the created ids as the idempotent metadata record. -/
def processShopifyOrderForBunjang (env : OrderEnv) (order : ShopifyOrder)
    (st : OrderProcState) : Except OrderProcError (ProcResult × OrderProcState) :=
  if order.id == 0 || order.admin_graphql_api_id == "" || order.line_items.isEmpty then
    .error (.validation "Order data invalid or missing line items.")
  else
    let identifier := env.orderIdentifierPrefix ++ toString order.id
    match env.metafieldReadFails, st.shopOrder.orderIdsMetafield with
    | false, some ids =>
      .ok ({ success := true, alreadyProcessed := true, bunjangOrderIds := ids }, st)
    | _, _ =>
      let looped := order.line_items.foldl
        (fun acc it => processLineItem env order.id it acc.1 acc.2) (st, [])
      let st1 := looped.1
      let createdIds := looped.2
      if createdIds.isEmpty then
        .ok ({ success := false, message := some "Bunjang order creation failed" }, st1)
      else
        let st2 := { st1 with shopOrder :=
          { tags := st1.shopOrder.tags ++ ["BunjangOrderPlaced", identifier]
            orderIdsMetafield := some createdIds
            orderCreatedAtMetafield := some env.now } }
        .ok ({ success := true, bunjangOrderIds := createdIds }, st2)

/-! ## Status sync engine (`syncBunjangOrderStatuses`) -/

/-- The `ValidationError` raised for an over-long date range, carrying
the requested span in days as reported in the error details. -/
structure StatusValidationError where
  requestedDays : ℚ
deriving DecidableEq, Repr

/-- One page of the paginated Bunjang "orders changed in window" listing. -/
structure BunjangOrdersPage where
  data : List Nat
  totalPages : Nat
deriving DecidableEq, Repr

/-- Environment of a status-sync run: the paginated remote listing and
the outcome of `updateShopifyOrderFromBunjangStatus` for each returned
remote order (per-order failures are caught and counted, so only success
or failure is observable at this level). -/
structure StatusEnv where
  getOrders : Nat → Option BunjangOrdersPage
  processOrderOk : Nat → Bool

/-- Result counters of `syncBunjangOrderStatuses`. -/
structure StatusSyncResult where
  success : Bool
  syncedOrders : Nat
  errors : Nat
deriving DecidableEq, Repr

/-- The pagination loop of `syncBunjangOrderStatuses` (`while (hasMore)`),
made structurally total with explicit fuel; each page's orders are
processed one by one, counting successes and caught failures. -/
def statusSyncLoop (env : StatusEnv) : Nat → Nat → Nat → Nat → Nat × Nat
  | 0, _, synced, errors => (synced, errors)
  | fuel + 1, page, synced, errors =>
    match env.getOrders page with
    | none => (synced, errors)
    | some resp =>
      let counted := resp.data.foldl
        (fun acc oid => if env.processOrderOk oid then (acc.1 + 1, acc.2) else (acc.1, acc.2 + 1))
        (synced, errors)
      if page < resp.totalPages - 1 then
        statusSyncLoop env fuel (page + 1) counted.1 counted.2
      else counted

/-- `syncBunjangOrderStatuses(startDate, endDate, jobId)` of
src/services/orderService.js.  Dates are epoch milliseconds; the span in
days is the exact rational `(endMs - startMs) / 86400000`, and a span
strictly greater than 15 days throws a `ValidationError` stating it. -/
def syncBunjangOrderStatuses (env : StatusEnv) (startMs endMs : ℤ) (fuel : Nat) :
    Except StatusValidationError StatusSyncResult :=
  let diffDays : ℚ := ((endMs - startMs : ℤ) : ℚ) / (86400000 : ℚ)
  if diffDays > 15 then
    .error { requestedDays := diffDays }
  else
    let counted := statusSyncLoop env fuel 0 0 0
    .ok { success := true, syncedOrders := counted.1, errors := counted.2 }

/-! ## Auxiliary model-side definitions used by the verification -/

/-- The immutable "shape" of a mapping document: every field the sync
primitive never changes (it only touches `bunjangQuantity` and
`lastInventorySyncAt`). -/
def dbShape (r : SyncedRec) : String × String × Option String × String :=
  (r.shopifyGid, r.shopifyDataId, r.bunjangPid, r.syncStatus)

/-- A well-linked world: every mapping that carries a Bunjang PID also
carries a storefront product reference whose variant exists. -/
def InvGood (st : InvState) : Prop :=
  ∀ r ∈ st.db, r.bunjangPid.isSome →
    r.shopifyGid ≠ "" ∧ (st.variants.find? (fun p => p.1 == r.shopifyGid)).isSome

instance : DecidablePred InvGood := fun st => by
  unfold InvGood; infer_instance

/-- Number of pacing pauses `performFullInventorySync` issues over `n`
consecutive all-successful items when the success counter starts at `s`
(a pause fires after an item iff the counter is even afterwards). -/
def pacedDelays : Nat → Nat → Nat
  | _, 0 => 0
  | s, n + 1 => (if (s + 1) % 2 == 0 then 1 else 0) + pacedDelays (s + 1) n

/-! ### Concrete fixtures used by the witnesses -/

/-- A healthy storefront backend: the set-quantity mutation reports no
errors and takes effect immediately. -/
def invEnvW : InvEnv := { setUserErrors := [], setTakesEffect := true, now := 7 }

/-- A storefront backend whose set-quantity mutation returns a
`userErrors` entry (hard failure of the attempt). -/
def invEnvErr : InvEnv := { setUserErrors := ["INVALID"], setTakesEffect := false, now := 7 }

/-- A linked mapping fixture. -/
def recW : SyncedRec :=
  { shopifyGid := "G1", shopifyDataId := "11", bunjangPid := some "P1",
    syncStatus := "SYNCED", bunjangQuantity := none, lastInventorySyncAt := none }

/-- A second linked mapping fixture. -/
def recW2 : SyncedRec :=
  { shopifyGid := "G2", shopifyDataId := "12", bunjangPid := some "P2",
    syncStatus := "SYNCED", bunjangQuantity := none, lastInventorySyncAt := none }

/-- A two-listing world whose warehouse levels start at 5 and -3. -/
def invStW : InvState :=
  { db := [recW, recW2]
    variants :=
      [("G1", { tracked := true, levels := [(BUNJANG_WAREHOUSE_GID, 5)] }),
       ("G2", { tracked := false, levels := [(BUNJANG_WAREHOUSE_GID, -3)] })] }

/-! ### Order-service fixtures used by the witnesses -/

/-- Bunjang product detail fixture: 50000 KRW, one unit available. -/
def detW : BunjangDetails :=
  { price := some 50000, quantity := some 1, shippingFee := some 3000 }

/-- A well-behaved remote environment for order processing: listing `2`
is gone from Bunjang, every other listing is live with `detW`; order
creation succeeds returning id `B<pid>`; the point-balance read returns
no body. -/
def orderEnvW : OrderEnv :=
  { orderIdentifierPrefix := "BunjangOrder-"
    lowBalanceThreshold := 1000000
    metafieldReadFails := false
    productTags := fun _ => .ok none
    getDetails := fun pid => if pid == "2" then .ok none else .ok (some detW)
    createOrder := fun pl => .ok (some ("B" ++ toString (pl.productId.getD 0)))
    pointBalance := .ok none
    now := "2026-01-01T00:00:00Z" }

/-- Like `orderEnvW` but the order-creation response carries no id. -/
def orderEnvNoId : OrderEnv := { orderEnvW with createOrder := fun _ => .ok none }

/-- Like `orderEnvW` but order creation fails with `POINT_SHORTAGE`. -/
def orderEnvPts : OrderEnv :=
  { orderEnvW with createOrder := fun _ => .error { errorCode := some "POINT_SHORTAGE" } }

/-- Mapping fixture linking Shopify product `n` to Bunjang listing `pid`. -/
def recO (n : Nat) (pid : String) : SyncedRec :=
  { shopifyGid := "gid://shopify/Product/" ++ toString n
    shopifyDataId := toString n
    bunjangPid := some pid
    syncStatus := "SYNCED"
    bunjangQuantity := none
    lastInventorySyncAt := none }

/-- Initial order-processing world: three linked products, clean order. -/
def orderStW : OrderProcState :=
  { db := [recO 101 "1", recO 102 "2", recO 103 "3"]
    shopOrder := { tags := [], orderIdsMetafield := none, orderCreatedAtMetafield := none }
    createCalls := []
    criticalLogs := 0 }

/-- A three-line-item storefront order (products 101, 102, 103). -/
def orderW3 : ShopifyOrder :=
  { id := 5001, admin_graphql_api_id := "gid://shopify/Order/5001"
    line_items := [{ product_id := 101, quantity := 1 },
                   { product_id := 102, quantity := 1 },
                   { product_id := 103, quantity := 1 }] }

/-- A one-line-item storefront order (product 101, one unit). -/
def orderW1 : ShopifyOrder :=
  { id := 5002, admin_graphql_api_id := "gid://shopify/Order/5002"
    line_items := [{ product_id := 101, quantity := 1 }] }

/-- A one-line-item storefront order requesting two units of product 101. -/
def orderW2q : ShopifyOrder :=
  { id := 5003, admin_graphql_api_id := "gid://shopify/Order/5003"
    line_items := [{ product_id := 101, quantity := 2 }] }

/-- The world after the first successful reconciliation of `orderW1`
(order id 5002, product 101): remote order `B1` placed and recorded. -/
def stAfterW : OrderProcState :=
  { db := orderStW.db
    shopOrder := { tags := ["BunjangOrder-B1", "BunjangOrderPlaced", "BunjangOrder-5002"]
                   orderIdsMetafield := some ["B1"]
                   orderCreatedAtMetafield := some "2026-01-01T00:00:00Z" }
    createCalls := [{ productId := some 1, price := 50000, deliveryPrice := 0 }]
    criticalLogs := 0 }

/-! ## Helper lemmas -/

lemma find?_overwrite {β : Type} (g : String) (b : β) (l : List (String × β)) :
    (l.map (fun p => if p.1 == g then (p.1, b) else p)).find? (fun p => p.1 == g)
      = (l.find? (fun p => p.1 == g)).map (fun p => (p.1, b)) := by
  induction l with
  | nil => rfl
  | cons a l ih =>
    by_cases h : a.1 = g
    · simp [h]
    · simp only [List.map_cons]
      rw [List.find?_cons_of_neg, List.find?_cons_of_neg, ih]
      · simp [h]
      · simp [h]

lemma getLevel_setLevelQ (v : VariantState) (loc : String) (q : Int) :
    getLevel (setLevelQ v loc q) loc = (getLevel v loc).map (fun _ => q) := by
  unfold getLevel setLevelQ
  simp only [find?_overwrite, Option.map_map]
  rfl

lemma getLevel_activateAt_isSome (v : VariantState) (loc : String) :
    (getLevel (activateAt v loc) loc).isSome := by
  unfold activateAt getLevel
  rcases hf : v.levels.find? (fun p => p.1 == loc) with _ | p
  · rw [if_neg (by simp [hf])]
    simp only
    rw [List.find?_append, hf]
    simp
  · rw [if_pos (by simp [hf])]
    simp [hf]

lemma forceWarehouseOne_level (v : VariantState)
    (h : (getLevel v BUNJANG_WAREHOUSE_GID).isSome) :
    getLevel (forceWarehouseOne v) BUNJANG_WAREHOUSE_GID = some 1 := by
  unfold forceWarehouseOne
  rcases hq : getLevel v BUNJANG_WAREHOUSE_GID with _ | q
  · simp [hq] at h
  · by_cases h1 : q = 1
    · subst h1
      simp [hq]
    · dsimp only
      rw [if_neg (by simp [h1])]
      rw [getLevel_setLevelQ, hq]
      rfl

lemma isSome_getLevel_setLevelQ (v : VariantState) (loc : String) (q : Int) :
    (getLevel (setLevelQ v loc q) loc).isSome = (getLevel v loc).isSome := by
  rw [getLevel_setLevelQ]
  cases getLevel v loc <;> rfl

lemma map_fst_overwrite {β : Type} (l : List (String × β)) (g : String) (b : β) :
    (l.map (fun p => if p.1 == g then (p.1, b) else p)).map Prod.fst = l.map Prod.fst := by
  rw [List.map_map]
  apply List.map_congr_left
  intro p _
  by_cases hp : (p.1 == g) = true
  · rw [Function.comp_apply, if_pos hp]
  · rw [Function.comp_apply, if_neg hp]

lemma map_dbShape_update (l : List SyncedRec) (pid : String) (n : Nat) :
    (l.map (fun r => if r.bunjangPid == some pid then
        { r with bunjangQuantity := some 1, lastInventorySyncAt := some n }
      else r)).map dbShape = l.map dbShape := by
  rw [List.map_map]
  apply List.map_congr_left
  intro r _
  by_cases hr : (r.bunjangPid == some pid) = true
  · rw [Function.comp_apply, if_pos hr]
    rfl
  · rw [Function.comp_apply, if_neg hr]

lemma sync_shape (env : InvEnv) (pid : String) (q : Int) (st : InvState) :
    (syncBunjangInventoryToShopify env pid q st).1.db.map dbShape = st.db.map dbShape ∧
    (syncBunjangInventoryToShopify env pid q st).1.variants.map Prod.fst
      = st.variants.map Prod.fst := by
  unfold syncBunjangInventoryToShopify
  split
  · exact ⟨rfl, rfl⟩
  · split
    · exact ⟨rfl, rfl⟩
    · split
      · exact ⟨rfl, rfl⟩
      · constructor
        · dsimp only
          split
          · dsimp only
            exact map_dbShape_update _ _ _
          · rfl
        · dsimp only
          split
          · dsimp only
            exact map_fst_overwrite _ _ _
          · dsimp only
            exact map_fst_overwrite _ _ _

lemma warehouse_one_after_steps (v : VariantState) (b : Bool) :
    getLevel (forceWarehouseOne (applySet b (activateAt v BUNJANG_WAREHOUSE_GID)))
      BUNJANG_WAREHOUSE_GID = some 1 := by
  apply forceWarehouseOne_level
  unfold applySet
  cases b
  · exact getLevel_activateAt_isSome v _
  · rw [if_pos rfl, isSome_getLevel_setLevelQ]
    exact getLevel_activateAt_isSome v _

/-! ## Claim theorems -/

/-- C9: the quantity argument of `syncBunjangInventoryToShopify` is never
read — for any listing id, world and pair of quantity arguments (such as
the restored or decremented stock values the order-updated / order-created
webhook handlers compute), the two calls perform identical storefront and
store mutations and return the same result, the warehouse quantity being
pinned to 1 regardless. -/
theorem syncInventory_quantity_noninterference (env : InvEnv) (pid : String)
    (q1 q2 : Int) (st : InvState) :
    syncBunjangInventoryToShopify env pid q1 st
      = syncBunjangInventoryToShopify env pid q2 st := rfl

/-- C2: whenever `syncBunjangInventoryToShopify` returns `true` for a
linked listing, the storefront on-hand quantity of the mapped product's
variant at the BunJang Warehouse location equals exactly 1 in the
resulting world — whatever the quantity held there before the call. -/
theorem syncInventory_pins_warehouse_one (env : InvEnv) (pid : String)
    (q : Int) (st st' : InvState)
    (h : syncBunjangInventoryToShopify env pid q st = (st', .ok true)) :
    ∃ sp, findByBunjangPid st.db pid = some sp ∧
      ∃ v, (st'.variants.find? (fun p => p.1 == sp.shopifyGid)).map Prod.snd = some v ∧
        getLevel v BUNJANG_WAREHOUSE_GID = some 1 := by
  unfold syncBunjangInventoryToShopify at h
  split at h
  · exact absurd (congrArg Prod.snd h) (by simp)
  next sp hf =>
    split at h
    · exact absurd (congrArg Prod.snd h) (by simp)
    next hgid =>
      split at h
      · exact absurd (congrArg Prod.snd h) (by simp)
      next variant hv =>
        split at h
        next hue =>
          have hst : _ = st' := congrArg Prod.fst h
          refine ⟨sp, hf, ?_⟩
          obtain ⟨pv, hpv⟩ : ∃ pv, st.variants.find? (fun p => p.1 == sp.shopifyGid) = some pv := by
            cases hfind : st.variants.find? (fun p => p.1 == sp.shopifyGid) with
            | none => rw [hfind] at hv; exact absurd hv (by simp)
            | some pv => exact ⟨pv, rfl⟩
          refine ⟨forceWarehouseOne (applySet env.setTakesEffect
            (activateAt (ensureTracked variant) BUNJANG_WAREHOUSE_GID)), ?_,
            warehouse_one_after_steps _ _⟩
          rw [← hst]
          dsimp only
          rw [find?_overwrite, hpv]
          rfl
        next hue =>
          exact absurd (congrArg Prod.snd h) (by simp)

/-- C7: `deleteProductIfOutOfStock` never deletes the mapping or the
storefront listing: whenever it returns normally it returns `false`, the
mapping store keeps exactly the same documents (only the sync
bookkeeping fields may change) and the storefront keeps exactly the same
listings, and the final world is the one produced by re-asserting
quantity 1 through `syncBunjangInventoryToShopify`. -/
theorem deleteProductIfOutOfStock_never_deletes (env : InvEnv) (pid gid : String)
    (st st' : InvState) (b : Bool)
    (h : deleteProductIfOutOfStock env pid gid st = (st', .ok b)) :
    b = false ∧
    st'.db.map dbShape = st.db.map dbShape ∧
    st'.variants.map Prod.fst = st.variants.map Prod.fst ∧
    ∃ e, syncBunjangInventoryToShopify env pid 1 st = (st', e) := by
  unfold deleteProductIfOutOfStock at h
  rcases hs : syncBunjangInventoryToShopify env pid 1 st with ⟨st0, e0⟩
  rw [hs] at h
  cases e0 with
  | error msg =>
    have hcontra : Except.error (ε := String) (α := Bool) msg = .ok b := congrArg Prod.snd h
    exact absurd hcontra (by simp)
  | ok b0 =>
    have h1 : st0 = st' := congrArg Prod.fst h
    have h2 : Except.ok (ε := String) (α := Bool) false = .ok b := congrArg Prod.snd h
    subst h1
    have hsh := sync_shape env pid 1 st
    rw [hs] at hsh
    exact ⟨(Except.ok.inj h2).symm, hsh.1, hsh.2, ⟨.ok b0, rfl⟩⟩

/-- C4: `syncBunjangOrderStatuses` accepts a span of exactly 15 days and
proceeds past validation, while a span of 15 days plus one second (1000
milliseconds) raises a `ValidationError` stating the requested span in
days. -/
theorem syncOrderStatuses_fifteen_day_boundary (env : StatusEnv) (fuel : Nat) (s : ℤ) :
    (∃ r, syncBunjangOrderStatuses env s (s + 15 * 86400000) fuel = .ok r) ∧
    syncBunjangOrderStatuses env s (s + (15 * 86400000 + 1000)) fuel =
      .error { requestedDays := (1296001000 : ℚ) / 86400000 } := by
  constructor
  · have he : (s + 15 * 86400000 - s : ℤ) = 1296000000 := by ring
    have hc : ¬ (((s + 15 * 86400000 - s : ℤ) : ℚ) / (86400000 : ℚ) > 15) := by
      rw [he]; norm_num
    refine ⟨{ success := true, syncedOrders := (statusSyncLoop env fuel 0 0 0).1,
              errors := (statusSyncLoop env fuel 0 0 0).2 }, ?_⟩
    simp only [syncBunjangOrderStatuses]
    rw [if_neg hc]
  · have he : (s + (15 * 86400000 + 1000) - s : ℤ) = 1296001000 := by ring
    simp only [syncBunjangOrderStatuses]
    rw [he]
    rw [if_pos (by norm_num : (((1296001000 : ℤ) : ℚ)) / (86400000 : ℚ) > 15)]
    norm_num

/-- Witness for C2 at a concrete input: listing `P2` is linked to product
`G2`, whose variant starts untracked with warehouse level -3; the sync
returns `true` and the resulting warehouse level is exactly 1. -/
theorem syncInventory_pins_warehouse_one_witness :
    syncBunjangInventoryToShopify invEnvW "P2" 0 invStW
      = ((syncBunjangInventoryToShopify invEnvW "P2" 0 invStW).1, .ok true) ∧
    (∃ sp, findByBunjangPid invStW.db "P2" = some sp ∧
      ∃ v, ((syncBunjangInventoryToShopify invEnvW "P2" 0 invStW).1.variants.find?
          (fun p => p.1 == sp.shopifyGid)).map Prod.snd = some v ∧
        getLevel v BUNJANG_WAREHOUSE_GID = some 1) :=
  ⟨rfl, syncInventory_pins_warehouse_one invEnvW "P2" 0 invStW _ rfl⟩

/-- Witness for C7 at a concrete input: the out-of-stock handler for
listing `P1` returns `false` and preserves every mapping and listing. -/
theorem deleteProductIfOutOfStock_never_deletes_witness :
    deleteProductIfOutOfStock invEnvW "P1" "G1" invStW
      = ((deleteProductIfOutOfStock invEnvW "P1" "G1" invStW).1, .ok false) ∧
    (false = false ∧
      (deleteProductIfOutOfStock invEnvW "P1" "G1" invStW).1.db.map dbShape
        = invStW.db.map dbShape ∧
      (deleteProductIfOutOfStock invEnvW "P1" "G1" invStW).1.variants.map Prod.fst
        = invStW.variants.map Prod.fst ∧
      ∃ e, syncBunjangInventoryToShopify invEnvW "P1" 1 invStW
        = ((deleteProductIfOutOfStock invEnvW "P1" "G1" invStW).1, e)) :=
  ⟨rfl, deleteProductIfOutOfStock_never_deletes invEnvW "P1" "G1" invStW _ false rfl⟩

lemma pacedDelays_add_two (s n : Nat) : pacedDelays (s + 2) n = pacedDelays s n := by
  induction n generalizing s with
  | zero => rfl
  | succ n ih =>
    simp only [pacedDelays]
    have h1 : (s + 2 + 1) % 2 = (s + 1) % 2 := by omega
    rw [h1, show s + 2 + 1 = s + 1 + 2 from by omega, ih (s + 1)]

lemma pacedDelays_halves (n : Nat) :
    pacedDelays 0 n = n / 2 ∧ pacedDelays 1 n = (n + 1) / 2 := by
  induction n with
  | zero => exact ⟨rfl, rfl⟩
  | succ n ih =>
    have h2 : pacedDelays 2 n = pacedDelays 0 n := by
      have := pacedDelays_add_two 0 n
      norm_num at this
      exact this
    constructor
    · simp only [pacedDelays]
      norm_num
      rw [ih.2]
    · simp only [pacedDelays]
      norm_num
      rw [h2, ih.1]
      omega

lemma sync_ok_true_of_good (env : InvEnv) (pid : String) (st : InvState)
    (hue : env.setUserErrors = [])
    (hex : ∃ r ∈ st.db, r.bunjangPid = some pid)
    (hg : InvGood st) :
    (syncBunjangInventoryToShopify env pid 1 st).2 = .ok true := by
  obtain ⟨sp, hsp⟩ : ∃ sp, findByBunjangPid st.db pid = some sp := by
    rcases hex with ⟨r, hr, hpid⟩
    apply Option.isSome_iff_exists.mp
    unfold findByBunjangPid
    rw [List.find?_isSome]
    exact ⟨r, hr, by simp [hpid]⟩
  have hmem := List.mem_of_find?_eq_some hsp
  have hpidsp : sp.bunjangPid = some pid := by
    have := List.find?_some hsp
    simpa using this
  obtain ⟨hgid, hvar⟩ := hg sp hmem (by simp [hpidsp])
  obtain ⟨pv, hpv⟩ := Option.isSome_iff_exists.mp hvar
  unfold syncBunjangInventoryToShopify
  rw [hsp]
  dsimp only
  rw [if_neg (by simp [hgid])]
  rw [hpv]
  simp only [Option.map_some']
  rw [if_pos (by simp [hue])]

lemma invGood_preserved (env : InvEnv) (pid : String) (q : Int) (st : InvState)
    (hg : InvGood st) :
    InvGood (syncBunjangInventoryToShopify env pid q st).1 := by
  obtain ⟨hdb, hvar⟩ := sync_shape env pid q st
  intro r hr hpid
  have hin : dbShape r ∈ st.db.map dbShape := by
    rw [← hdb]
    exact List.mem_map_of_mem _ hr
  obtain ⟨r0, hr0, hshape⟩ := List.mem_map.mp hin
  have e1 : r0.shopifyGid = r.shopifyGid := congrArg (fun t => t.1) hshape
  have e3 : r0.bunjangPid = r.bunjangPid := congrArg (fun t => t.2.2.1) hshape
  obtain ⟨hgid, hfind⟩ := hg r0 hr0 (by rw [e3]; exact hpid)
  refine ⟨by rw [← e1]; exact hgid, ?_⟩
  rw [List.find?_isSome] at hfind ⊢
  obtain ⟨p0, hp0, hp0eq⟩ := hfind
  have hkey : p0.1 ∈ (syncBunjangInventoryToShopify env pid q st).1.variants.map Prod.fst := by
    rw [hvar]
    exact List.mem_map_of_mem _ hp0
  obtain ⟨p1, hp1, hp1eq⟩ := List.mem_map.mp hkey
  have hp01 : p0.1 = r0.shopifyGid := by simpa using hp0eq
  exact ⟨p1, hp1, by rw [hp1eq, hp01, e1]; simp⟩

lemma fullSync_loop_all_ok (env : InvEnv) (hue : env.setUserErrors = []) (st0 : InvState) :
    ∀ (ps : List SyncedRec) (res : FullSyncResults) (st : InvState),
      InvGood st → st.db.map dbShape = st0.db.map dbShape →
      (∀ p ∈ ps, p ∈ st0.db ∧ p.bunjangPid.isSome) →
      (ps.foldl (fullSyncStep env) (res, st)).1.synced = res.synced + ps.length ∧
      (ps.foldl (fullSyncStep env) (res, st)).1.delays
        = res.delays + pacedDelays res.synced ps.length ∧
      (ps.foldl (fullSyncStep env) (res, st)).1.totalProducts = res.totalProducts := by
  intro ps
  induction ps with
  | nil =>
    intro res st _ _ _
    simp [pacedDelays]
  | cons p ps ih =>
    intro res st hg hsh hmem
    obtain ⟨hp0, hpsome⟩ := hmem p (List.mem_cons_self p ps)
    obtain ⟨pid, hpid⟩ := Option.isSome_iff_exists.mp hpsome
    have hex : ∃ r ∈ st.db, r.bunjangPid = some pid := by
      have hin : dbShape p ∈ st.db.map dbShape := by
        rw [hsh]
        exact List.mem_map_of_mem _ hp0
      obtain ⟨r, hr, hrsh⟩ := List.mem_map.mp hin
      refine ⟨r, hr, ?_⟩
      have hbp : r.bunjangPid = p.bunjangPid := congrArg (fun t => t.2.2.1) hrsh
      rw [hbp, hpid]
    have hok := sync_ok_true_of_good env pid st hue hex hg
    rcases hsy : syncBunjangInventoryToShopify env pid 1 st with ⟨st', e⟩
    rw [hsy] at hok
    have he : e = .ok true := hok
    subst he
    have hg' : InvGood st' := by
      have := invGood_preserved env pid 1 st hg
      rw [hsy] at this
      exact this
    have hsh' : st'.db.map dbShape = st0.db.map dbShape := by
      have := (sync_shape env pid 1 st).1
      rw [hsy] at this
      exact this.trans hsh
    have hmem' : ∀ q ∈ ps, q ∈ st0.db ∧ q.bunjangPid.isSome := by
      intro q hq
      exact hmem q (List.mem_cons_of_mem p hq)
    have hstep : fullSyncStep env (res, st) p =
        (if (res.synced + 1) % 2 == 0
          then ({ res with synced := res.synced + 1, delays := res.delays + 1 }, st')
          else ({ res with synced := res.synced + 1 }, st')) := by
      unfold fullSyncStep
      rw [hpid]
      dsimp only
      rw [hsy]
    rw [List.foldl_cons, hstep]
    by_cases hpar : (res.synced + 1) % 2 = 0
    · rw [if_pos (by simpa using hpar)]
      obtain ⟨h1, h2, h3⟩ := ih { res with synced := res.synced + 1, delays := res.delays + 1 } st' hg' hsh' hmem'
      refine ⟨?_, ?_, ?_⟩
      · rw [h1, List.length_cons]
        show res.synced + 1 + ps.length = res.synced + (ps.length + 1)
        omega
      · rw [h2, List.length_cons]
        show res.delays + 1 + pacedDelays (res.synced + 1) ps.length
          = res.delays + pacedDelays res.synced (ps.length + 1)
        rw [show pacedDelays res.synced (ps.length + 1)
            = (if (res.synced + 1) % 2 == 0 then 1 else 0)
              + pacedDelays (res.synced + 1) ps.length from rfl]
        rw [if_pos (by simpa using hpar)]
        omega
      · rw [h3]
    · rw [if_neg (by simpa using hpar)]
      obtain ⟨h1, h2, h3⟩ := ih { res with synced := res.synced + 1 } st' hg' hsh' hmem'
      refine ⟨?_, ?_, ?_⟩
      · rw [h1, List.length_cons]
        show res.synced + 1 + ps.length = res.synced + (ps.length + 1)
        omega
      · rw [h2, List.length_cons]
        show res.delays + pacedDelays (res.synced + 1) ps.length
          = res.delays + pacedDelays res.synced (ps.length + 1)
        rw [show pacedDelays res.synced (ps.length + 1)
            = (if (res.synced + 1) % 2 == 0 then 1 else 0)
              + pacedDelays (res.synced + 1) ps.length from rfl]
        rw [if_neg (by simpa using hpar)]
        omega
      · rw [h3]

/-- C8 (amended): the pacing delay of `performFullInventorySync` fires
after each item at which the cumulative count of *successful* syncs is
even; only when every item in the batch syncs successfully does this
amount to exactly one pause per two items processed (`⌊n/2⌋` pauses for
`n` items).  Failed or skipped items do not advance the counter, so the
pacing is not independent of per-item outcomes. -/
theorem performFullInventorySync_pacing (env : InvEnv) (st : InvState)
    (hue : env.setUserErrors = []) (hg : InvGood st) :
    (performFullInventorySync env st).1.delays
        = (performFullInventorySync env st).1.totalProducts / 2 ∧
    (performFullInventorySync env st).1.synced
        = (performFullInventorySync env st).1.totalProducts := by
  unfold performFullInventorySync
  have hmem : ∀ p ∈ (st.db.filter
        (fun r => r.syncStatus == "SYNCED" && r.bunjangPid.isSome)).take 1000,
      p ∈ st.db ∧ p.bunjangPid.isSome := by
    intro p hp
    have hp' := List.take_subset _ _ hp
    obtain ⟨hmem', hpred⟩ := List.mem_filter.mp hp'
    refine ⟨hmem', ?_⟩
    have := hpred
    simp at this
    exact this.2
  obtain ⟨h1, h2, h3⟩ := fullSync_loop_all_ok env hue st
    ((st.db.filter (fun r => r.syncStatus == "SYNCED" && r.bunjangPid.isSome)).take 1000)
    { totalProducts := ((st.db.filter
        (fun r => r.syncStatus == "SYNCED" && r.bunjangPid.isSome)).take 1000).length,
      synced := 0, failed := 0, skipped := 0, delays := 0 }
    st hg rfl hmem
  constructor
  · rw [h2, h3]
    show 0 + pacedDelays 0 ((st.db.filter
        (fun r => r.syncStatus == "SYNCED" && r.bunjangPid.isSome)).take 1000).length
      = ((st.db.filter
        (fun r => r.syncStatus == "SYNCED" && r.bunjangPid.isSome)).take 1000).length / 2
    rw [(pacedDelays_halves _).1]
    omega
  · rw [h1, h3]
    show 0 + ((st.db.filter
        (fun r => r.syncStatus == "SYNCED" && r.bunjangPid.isSome)).take 1000).length
      = ((st.db.filter
        (fun r => r.syncStatus == "SYNCED" && r.bunjangPid.isSome)).take 1000).length
    omega

/-- C8 counterexample: a batch of two linked items whose set-quantity
mutations both fail (`userErrors` non-empty) issues the pacing delay
after *every* item (the success counter stays 0, which is even), so two
items produce two delays — not the one delay per two items the claim
states. -/
theorem performFullInventorySync_pacing_counterexample :
    (performFullInventorySync invEnvErr invStW).1.totalProducts = 2 ∧
    (performFullInventorySync invEnvErr invStW).1.failed = 2 ∧
    (performFullInventorySync invEnvErr invStW).1.delays = 2 ∧
    (performFullInventorySync invEnvErr invStW).1.delays
      ≠ (performFullInventorySync invEnvErr invStW).1.totalProducts / 2 := by
  refine ⟨rfl, rfl, rfl, ?_⟩
  intro hcontra
  rw [show (performFullInventorySync invEnvErr invStW).1.delays = 2 from rfl,
      show (performFullInventorySync invEnvErr invStW).1.totalProducts = 2 from rfl] at hcontra
  omega

/-- Witness for C8 (amended) at a concrete input: an all-successful batch
of two items issues exactly one pacing delay. -/
theorem performFullInventorySync_pacing_witness :
    invEnvW.setUserErrors = [] ∧ InvGood invStW ∧
    (performFullInventorySync invEnvW invStW).1.delays
      = (performFullInventorySync invEnvW invStW).1.totalProducts / 2 ∧
    (performFullInventorySync invEnvW invStW).1.synced
      = (performFullInventorySync invEnvW invStW).1.totalProducts ∧
    (performFullInventorySync invEnvW invStW).1.delays = 1 ∧
    (performFullInventorySync invEnvW invStW).1.totalProducts = 2 :=
  ⟨rfl, by decide,
   (performFullInventorySync_pacing invEnvW invStW rfl (by decide)).1,
   (performFullInventorySync_pacing invEnvW invStW rfl (by decide)).2,
   rfl, rfl⟩

@[simp] lemma addTags_db (st : OrderProcState) (ts : List String) :
    (addTags st ts).db = st.db := rfl

@[simp] lemma addTags_createCalls (st : OrderProcState) (ts : List String) :
    (addTags st ts).createCalls = st.createCalls := rfl

@[simp] lemma addTags_criticalLogs (st : OrderProcState) (ts : List String) :
    (addTags st ts).criticalLogs = st.criticalLogs := rfl

@[simp] lemma addTags_tags (st : OrderProcState) (ts : List String) :
    (addTags st ts).shopOrder.tags = st.shopOrder.tags ++ ts := rfl

@[simp] lemma addTags_orderIdsMetafield (st : OrderProcState) (ts : List String) :
    (addTags st ts).shopOrder.orderIdsMetafield = st.shopOrder.orderIdsMetafield := rfl

lemma processLineItem_notFound (env : OrderEnv) (oid : Nat) (item : LineItem)
    (st : OrderProcState) (ids : List String) (r : SyncedRec) (pid : String)
    (hf : findSyncedByShopifyProduct st.db item.product_id = some r)
    (hp : r.bunjangPid = some pid)
    (hd : env.getDetails pid = .ok none) :
    processLineItem env oid item st ids =
      (addTags st [env.orderIdentifierPrefix ++ toString oid ++ "_Error",
        "PID-" ++ pid ++ "-NotFound"], ids) := by
  simp only [processLineItem]
  rw [hf]
  dsimp only
  rw [hp]
  dsimp only
  rw [hd]

lemma processLineItem_insufficient (env : OrderEnv) (oid : Nat) (item : LineItem)
    (st : OrderProcState) (ids : List String) (r : SyncedRec) (pid : String)
    (d : BunjangDetails)
    (hf : findSyncedByShopifyProduct st.db item.product_id = some r)
    (hp : r.bunjangPid = some pid)
    (hd : env.getDetails pid = .ok (some d))
    (hq : d.quantity.getD 0 < item.quantity) :
    processLineItem env oid item st ids =
      (addTags st [env.orderIdentifierPrefix ++ toString oid ++ "_Error",
        "PID-" ++ pid ++ "-InsufficientStock"], ids) := by
  simp only [processLineItem]
  rw [hf]
  dsimp only
  rw [hp]
  dsimp only
  rw [hd]
  dsimp only
  rw [if_pos hq]

lemma processLineItem_success (env : OrderEnv) (oid : Nat) (item : LineItem)
    (st : OrderProcState) (ids : List String) (r : SyncedRec) (pid : String)
    (d : BunjangDetails) (bid : String)
    (hf : findSyncedByShopifyProduct st.db item.product_id = some r)
    (hp : r.bunjangPid = some pid)
    (hd : env.getDetails pid = .ok (some d))
    (hq : ¬ (d.quantity.getD 0 < item.quantity))
    (hc : env.createOrder
      { productId := parsePid pid, price := d.price.getD 0, deliveryPrice := 0 } = .ok (some bid))
    (hb : env.pointBalance = .ok none) :
    processLineItem env oid item st ids =
      (addTags { st with createCalls := st.createCalls
          ++ [{ productId := parsePid pid, price := d.price.getD 0, deliveryPrice := 0 }] }
        ["BunjangOrder-" ++ bid], ids ++ [bid]) := by
  simp only [processLineItem]
  rw [hf]
  dsimp only
  rw [hp]
  dsimp only
  rw [hd]
  dsimp only
  rw [if_neg hq]
  rw [hc]
  dsimp only
  rw [hb]

lemma processLineItem_noOrderId (env : OrderEnv) (oid : Nat) (item : LineItem)
    (st : OrderProcState) (ids : List String) (r : SyncedRec) (pid : String)
    (d : BunjangDetails)
    (hf : findSyncedByShopifyProduct st.db item.product_id = some r)
    (hp : r.bunjangPid = some pid)
    (hd : env.getDetails pid = .ok (some d))
    (hq : ¬ (d.quantity.getD 0 < item.quantity))
    (hc : env.createOrder
      { productId := parsePid pid, price := d.price.getD 0, deliveryPrice := 0 } = .ok none) :
    processLineItem env oid item st ids =
      (addTags { st with createCalls := st.createCalls
          ++ [{ productId := parsePid pid, price := d.price.getD 0, deliveryPrice := 0 }] }
        [env.orderIdentifierPrefix ++ toString oid ++ "_Error",
         "PID-" ++ pid ++ "-NoOrderId"], ids) := by
  simp only [processLineItem]
  rw [hf]
  dsimp only
  rw [hp]
  dsimp only
  rw [hd]
  dsimp only
  rw [if_neg hq]
  rw [hc]

lemma processLineItem_createError (env : OrderEnv) (oid : Nat) (item : LineItem)
    (st : OrderProcState) (ids : List String) (r : SyncedRec) (pid : String)
    (d : BunjangDetails) (apiErr : BunjangApiError)
    (hf : findSyncedByShopifyProduct st.db item.product_id = some r)
    (hp : r.bunjangPid = some pid)
    (hd : env.getDetails pid = .ok (some d))
    (hq : ¬ (d.quantity.getD 0 < item.quantity))
    (hc : env.createOrder
      { productId := parsePid pid, price := d.price.getD 0, deliveryPrice := 0 } = .error apiErr) :
    processLineItem env oid item st ids =
      (addTags { st with
          createCalls := st.createCalls
            ++ [{ productId := parsePid pid, price := d.price.getD 0, deliveryPrice := 0 }],
          criticalLogs := st.criticalLogs + (if apiErr.errorCode == some "POINT_SHORTAGE" then 1 else 0) }
        [env.orderIdentifierPrefix ++ toString oid ++ "_Error",
         classifyBunjangOrderError pid apiErr.errorCode], ids) := by
  simp only [processLineItem]
  rw [hf]
  dsimp only
  rw [hp]
  dsimp only
  rw [hd]
  dsimp only
  rw [if_neg hq]
  rw [hc]
  dsimp only
  by_cases hcode : (apiErr.errorCode == some "POINT_SHORTAGE") = true
  · rw [if_pos hcode, if_pos hcode]
  · rw [if_neg hcode, if_neg hcode]
    simp

lemma processOrder_ok_success (env : OrderEnv) (order : ShopifyOrder)
    (st : OrderProcState) (r1 : ProcResult) (st1 : OrderProcState)
    (h1 : processShopifyOrderForBunjang env order st = .ok (r1, st1))
    (hs : r1.success = true) (hap : r1.alreadyProcessed = false) :
    st1.shopOrder.orderIdsMetafield = some r1.bunjangOrderIds ∧
    (order.id == 0 || order.admin_graphql_api_id == "" || order.line_items.isEmpty) = false := by
  unfold processShopifyOrderForBunjang at h1
  split at h1
  · exact absurd h1 (by simp)
  next hvalid =>
    have hvalid' : (order.id == 0 || order.admin_graphql_api_id == ""
        || order.line_items.isEmpty) = false := by
      simpa using hvalid
    split at h1
    · have hpair := Except.ok.inj h1
      simp only [Prod.mk.injEq] at hpair
      rw [← hpair.1] at hap
      simp at hap
    · dsimp only at h1
      split at h1
      · have hpair := Except.ok.inj h1
        simp only [Prod.mk.injEq] at hpair
        rw [← hpair.1] at hs
        simp at hs
      · have hpair := Except.ok.inj h1
        simp only [Prod.mk.injEq] at hpair
        refine ⟨?_, hvalid'⟩
        rw [← hpair.2, ← hpair.1]

/-- C1: once a first call to `processShopifyOrderForBunjang` has
succeeded (placing remote orders and persisting the `bunjang/order_ids`
metafield), a second call with the same order whose metafield read does
not fail returns `success := true, alreadyProcessed := true` with exactly
the previously recorded id list, leaves the world untouched, and in
particular performs no remote order-creation call. -/
theorem processOrder_idempotent (env1 env2 : OrderEnv) (order : ShopifyOrder)
    (st st1 : OrderProcState) (r1 : ProcResult)
    (h1 : processShopifyOrderForBunjang env1 order st = .ok (r1, st1))
    (hs : r1.success = true) (hap : r1.alreadyProcessed = false)
    (h2 : env2.metafieldReadFails = false) :
    processShopifyOrderForBunjang env2 order st1 =
      .ok ({ success := true, alreadyProcessed := true,
             bunjangOrderIds := r1.bunjangOrderIds }, st1) := by
  obtain ⟨hmeta, hvalid⟩ := processOrder_ok_success env1 order st r1 st1 h1 hs hap
  unfold processShopifyOrderForBunjang
  rw [if_neg (by simp [hvalid])]
  rw [h2, hmeta]

/-- Witness for C1 at a concrete input: order 5002 (one line item mapped
to listing `1`) is reconciled once, creating remote order `B1`; the
second call returns `alreadyProcessed := true` with the same single id
and the world unchanged. -/
theorem processOrder_idempotent_witness :
    processShopifyOrderForBunjang orderEnvW orderW1 orderStW
      = .ok ({ success := true, bunjangOrderIds := ["B1"] }, stAfterW) ∧
    orderEnvW.metafieldReadFails = false ∧
    processShopifyOrderForBunjang orderEnvW orderW1 stAfterW
      = .ok ({ success := true, alreadyProcessed := true, bunjangOrderIds := ["B1"] }, stAfterW) :=
  ⟨by rfl, rfl,
   processOrder_idempotent orderEnvW orderEnvW orderW1 orderStW stAfterW
     { success := true, bunjangOrderIds := ["B1"] } (by rfl) rfl rfl rfl⟩

set_option maxHeartbeats 1000000 in
/-- C3: per-item failure isolation — in an order with three line items
whose middle item's remote listing is unavailable (live detail fetch
returns nothing), items 1 and 3 still produce their own remote orders
and tags, the failing item only adds its error tags, and the overall
result is `success := true` because at least one remote order was
created. -/
theorem per_item_failure_isolation
    (env : OrderEnv) (oid : Nat) (gid : String)
    (p1 p2 p3 q1 q2 q3 : Nat) (st : OrderProcState)
    (r1 r2 r3 : SyncedRec) (pid1 pid2 pid3 : String)
    (d1 d3 : BunjangDetails) (b1 b3 : String)
    (hoid : (oid == 0) = false) (hgid : (gid == "") = false)
    (hmeta : st.shopOrder.orderIdsMetafield = none)
    (hf1 : findSyncedByShopifyProduct st.db p1 = some r1)
    (hp1 : r1.bunjangPid = some pid1)
    (hd1 : env.getDetails pid1 = .ok (some d1))
    (hq1 : ¬ (d1.quantity.getD 0 < q1))
    (hc1 : env.createOrder
      { productId := parsePid pid1, price := d1.price.getD 0, deliveryPrice := 0 }
      = .ok (some b1))
    (hb : env.pointBalance = .ok none)
    (hf2 : findSyncedByShopifyProduct st.db p2 = some r2)
    (hp2 : r2.bunjangPid = some pid2)
    (hd2 : env.getDetails pid2 = .ok none)
    (hf3 : findSyncedByShopifyProduct st.db p3 = some r3)
    (hp3 : r3.bunjangPid = some pid3)
    (hd3 : env.getDetails pid3 = .ok (some d3))
    (hq3 : ¬ (d3.quantity.getD 0 < q3))
    (hc3 : env.createOrder
      { productId := parsePid pid3, price := d3.price.getD 0, deliveryPrice := 0 }
      = .ok (some b3)) :
    ∃ stF, processShopifyOrderForBunjang env
        { id := oid, admin_graphql_api_id := gid,
          line_items := [{ product_id := p1, quantity := q1 },
                         { product_id := p2, quantity := q2 },
                         { product_id := p3, quantity := q3 }] } st
      = .ok ({ success := true, bunjangOrderIds := [b1, b3] }, stF) ∧
      stF.createCalls = st.createCalls
        ++ [{ productId := parsePid pid1, price := d1.price.getD 0, deliveryPrice := 0 },
            { productId := parsePid pid3, price := d3.price.getD 0, deliveryPrice := 0 }] ∧
      stF.shopOrder.tags = st.shopOrder.tags
        ++ ["BunjangOrder-" ++ b1]
        ++ [env.orderIdentifierPrefix ++ toString oid ++ "_Error",
            "PID-" ++ pid2 ++ "-NotFound"]
        ++ ["BunjangOrder-" ++ b3]
        ++ ["BunjangOrderPlaced", env.orderIdentifierPrefix ++ toString oid] ∧
      stF.shopOrder.orderIdsMetafield = some [b1, b3] := by
  let stF : OrderProcState :=
    { db := st.db
      shopOrder :=
        { tags :=
            st.shopOrder.tags
              ++ ["BunjangOrder-" ++ b1,
                  env.orderIdentifierPrefix ++ toString oid ++ "_Error",
                  "PID-" ++ pid2 ++ "-NotFound",
                  "BunjangOrder-" ++ b3,
                  "BunjangOrderPlaced", env.orderIdentifierPrefix ++ toString oid]
          orderIdsMetafield := some [b1, b3]
          orderCreatedAtMetafield := some env.now }
      createCalls :=
        st.createCalls
          ++ [{ productId := parsePid pid1, price := d1.price.getD 0, deliveryPrice := 0 },
              { productId := parsePid pid3, price := d3.price.getD 0, deliveryPrice := 0 }]
      criticalLogs := st.criticalLogs }
  refine ⟨stF, ?_, rfl, by simp, rfl⟩
  unfold processShopifyOrderForBunjang
  rw [if_neg (by simp [hoid, hgid])]
  rw [hmeta]
  cases env.metafieldReadFails
  all_goals
    dsimp only
    simp only [List.foldl_cons, List.foldl_nil]
    rw [processLineItem_success env oid { product_id := p1, quantity := q1 } st []
      r1 pid1 d1 b1 hf1 hp1 hd1 hq1 hc1 hb]
    dsimp only
    rw [processLineItem_notFound env oid { product_id := p2, quantity := q2 }
      (addTags { st with createCalls := st.createCalls
          ++ [{ productId := parsePid pid1, price := d1.price.getD 0, deliveryPrice := 0 }] }
        ["BunjangOrder-" ++ b1])
      ([] ++ [b1]) r2 pid2 hf2 hp2 hd2]
    dsimp only
    rw [processLineItem_success env oid { product_id := p3, quantity := q3 }
      (addTags (addTags { st with createCalls := st.createCalls
            ++ [{ productId := parsePid pid1, price := d1.price.getD 0, deliveryPrice := 0 }] }
          ["BunjangOrder-" ++ b1])
        [env.orderIdentifierPrefix ++ toString oid ++ "_Error", "PID-" ++ pid2 ++ "-NotFound"])
      ([] ++ [b1]) r3 pid3 d3 b3 hf3 hp3 hd3 hq3 hc3 hb]
    dsimp only
    rw [if_neg (by simp)]
    simp [addTags]

/-- Witness for C3 at a concrete input: order 5001 with items mapped to
listings 1, 2, 3, where listing 2 is gone — remote orders B1 and B3 are
still created and the run succeeds. -/
theorem per_item_failure_isolation_witness :
    orderEnvW.getDetails "2" = .ok none ∧
    (∃ stF, processShopifyOrderForBunjang orderEnvW orderW3 orderStW
        = .ok ({ success := true, bunjangOrderIds := ["B1", "B3"] }, stF) ∧
      stF.createCalls = orderStW.createCalls
        ++ [{ productId := parsePid "1", price := detW.price.getD 0, deliveryPrice := 0 },
            { productId := parsePid "3", price := detW.price.getD 0, deliveryPrice := 0 }] ∧
      stF.shopOrder.tags = orderStW.shopOrder.tags
        ++ ["BunjangOrder-" ++ "B1"]
        ++ [orderEnvW.orderIdentifierPrefix ++ toString 5001 ++ "_Error",
            "PID-" ++ "2" ++ "-NotFound"]
        ++ ["BunjangOrder-" ++ "B3"]
        ++ ["BunjangOrderPlaced", orderEnvW.orderIdentifierPrefix ++ toString 5001] ∧
      stF.shopOrder.orderIdsMetafield = some ["B1", "B3"]) :=
  ⟨rfl, per_item_failure_isolation orderEnvW 5001 "gid://shopify/Order/5001" 101 102 103 1 1 1
    orderStW (recO 101 "1") (recO 102 "2") (recO 103 "3") "1" "2" "3" detW detW "B1" "B3"
    rfl (by rfl) rfl (by rfl) rfl (by rfl) (by decide) (by rfl) rfl (by rfl) rfl (by rfl)
    (by rfl) rfl (by rfl) (by decide) (by rfl)⟩

/-- C5: insufficient stock — when a line item's resolved listing reports
a live available quantity strictly below the ordered quantity, the
engine only tags the order with the error marker and
`PID-<id>-InsufficientStock` (no remote order-creation call is made, the
world is otherwise untouched) and processing returns normally so the
loop continues; an order none of whose items creates a remote order
returns `success := false`. -/
theorem insufficient_stock_handling
    (env : OrderEnv) (oid : Nat) (gid : String) (item : LineItem)
    (st : OrderProcState) (ids : List String) (r : SyncedRec) (pid : String)
    (d : BunjangDetails)
    (hoid : (oid == 0) = false) (hgid : (gid == "") = false)
    (hmeta : st.shopOrder.orderIdsMetafield = none)
    (hf : findSyncedByShopifyProduct st.db item.product_id = some r)
    (hp : r.bunjangPid = some pid)
    (hd : env.getDetails pid = .ok (some d))
    (hq : d.quantity.getD 0 < item.quantity) :
    processLineItem env oid item st ids =
      (addTags st [env.orderIdentifierPrefix ++ toString oid ++ "_Error",
        "PID-" ++ pid ++ "-InsufficientStock"], ids) ∧
    processShopifyOrderForBunjang env
        { id := oid, admin_graphql_api_id := gid, line_items := [item] } st
      = .ok ({ success := false, message := some "Bunjang order creation failed" },
          addTags st [env.orderIdentifierPrefix ++ toString oid ++ "_Error",
            "PID-" ++ pid ++ "-InsufficientStock"]) := by
  refine ⟨processLineItem_insufficient env oid item st ids r pid d hf hp hd hq, ?_⟩
  unfold processShopifyOrderForBunjang
  rw [if_neg (by simp [hoid, hgid])]
  rw [hmeta]
  cases env.metafieldReadFails
  all_goals
    dsimp only
    simp only [List.foldl_cons, List.foldl_nil]
    rw [processLineItem_insufficient env oid item st [] r pid d hf hp hd hq]
    rfl

/-- C10: missing order id in a successful creation response — the engine
records no remote order id (the created-ids accumulator is unchanged, so
the item does not count toward overall success), tags the order with the
error marker and `PID-<id>-NoOrderId`, and returns normally so the
remaining items are processed; for an order with only this item the
overall result is `success := false`. -/
theorem missing_order_id_handling
    (env : OrderEnv) (oid : Nat) (gid : String) (item : LineItem)
    (st : OrderProcState) (ids : List String) (r : SyncedRec) (pid : String)
    (d : BunjangDetails)
    (hoid : (oid == 0) = false) (hgid : (gid == "") = false)
    (hmeta : st.shopOrder.orderIdsMetafield = none)
    (hf : findSyncedByShopifyProduct st.db item.product_id = some r)
    (hp : r.bunjangPid = some pid)
    (hd : env.getDetails pid = .ok (some d))
    (hq : ¬ (d.quantity.getD 0 < item.quantity))
    (hc : env.createOrder
      { productId := parsePid pid, price := d.price.getD 0, deliveryPrice := 0 } = .ok none) :
    processLineItem env oid item st ids =
      (addTags { st with createCalls := st.createCalls
          ++ [{ productId := parsePid pid, price := d.price.getD 0, deliveryPrice := 0 }] }
        [env.orderIdentifierPrefix ++ toString oid ++ "_Error",
         "PID-" ++ pid ++ "-NoOrderId"], ids) ∧
    processShopifyOrderForBunjang env
        { id := oid, admin_graphql_api_id := gid, line_items := [item] } st
      = .ok ({ success := false, message := some "Bunjang order creation failed" },
          addTags { st with createCalls := st.createCalls
              ++ [{ productId := parsePid pid, price := d.price.getD 0, deliveryPrice := 0 }] }
            [env.orderIdentifierPrefix ++ toString oid ++ "_Error",
             "PID-" ++ pid ++ "-NoOrderId"]) := by
  refine ⟨processLineItem_noOrderId env oid item st ids r pid d hf hp hd hq hc, ?_⟩
  unfold processShopifyOrderForBunjang
  rw [if_neg (by simp [hoid, hgid])]
  rw [hmeta]
  cases env.metafieldReadFails
  all_goals
    dsimp only
    simp only [List.foldl_cons, List.foldl_nil]
    rw [processLineItem_noOrderId env oid item st [] r pid d hf hp hd hq hc]
    rfl

/-- Witness for C5 at a concrete input: order 5003 requests 2 units of a
listing whose live quantity is 1 — the order is tagged with the error
marker and `PID-1-InsufficientStock`, no remote call is made, and the
overall result is `success := false`. -/
theorem insufficient_stock_handling_witness :
    detW.quantity.getD 0 < 2 ∧
    (processLineItem orderEnvW 5003 { product_id := 101, quantity := 2 } orderStW [] =
      (addTags orderStW [orderEnvW.orderIdentifierPrefix ++ toString 5003 ++ "_Error",
        "PID-" ++ "1" ++ "-InsufficientStock"], []) ∧
     processShopifyOrderForBunjang orderEnvW orderW2q orderStW
      = .ok ({ success := false, message := some "Bunjang order creation failed" },
          addTags orderStW [orderEnvW.orderIdentifierPrefix ++ toString 5003 ++ "_Error",
            "PID-" ++ "1" ++ "-InsufficientStock"])) :=
  ⟨by decide, insufficient_stock_handling orderEnvW 5003 "gid://shopify/Order/5003"
    { product_id := 101, quantity := 2 } orderStW [] (recO 101 "1") "1" detW
    rfl (by rfl) rfl (by rfl) rfl (by rfl) (by decide)⟩

/-- Witness for C10 at a concrete input: a creation response without an
order id leaves no recorded id, tags `PID-1-NoOrderId`, and the
single-item order returns `success := false`. -/
theorem missing_order_id_handling_witness :
    orderEnvNoId.createOrder
      { productId := parsePid "1", price := detW.price.getD 0, deliveryPrice := 0 } = .ok none ∧
    (processLineItem orderEnvNoId 5002 { product_id := 101, quantity := 1 } orderStW [] =
      (addTags { orderStW with createCalls := orderStW.createCalls
          ++ [{ productId := parsePid "1", price := detW.price.getD 0, deliveryPrice := 0 }] }
        [orderEnvNoId.orderIdentifierPrefix ++ toString 5002 ++ "_Error",
         "PID-" ++ "1" ++ "-NoOrderId"], []) ∧
     processShopifyOrderForBunjang orderEnvNoId orderW1 orderStW
      = .ok ({ success := false, message := some "Bunjang order creation failed" },
          addTags { orderStW with createCalls := orderStW.createCalls
              ++ [{ productId := parsePid "1", price := detW.price.getD 0, deliveryPrice := 0 }] }
            [orderEnvNoId.orderIdentifierPrefix ++ toString 5002 ++ "_Error",
             "PID-" ++ "1" ++ "-NoOrderId"])) :=
  ⟨by rfl, missing_order_id_handling orderEnvNoId 5002 "gid://shopify/Order/5002"
    { product_id := 101, quantity := 1 } orderStW [] (recO 101 "1") "1" detW
    rfl (by rfl) rfl (by rfl) rfl (by rfl) (by decide) (by rfl)⟩

/-- C6: closed classification of remote order-creation failures —
`PRODUCT_NOT_FOUND`, `PRODUCT_SOLD_OUT` and `PRODUCT_ON_HOLD` map to
`NotAvailable`, `INVALID_PRODUCT_PRICE` to `PriceChanged`,
`POINT_SHORTAGE` to `InsufficientPoints` (with one CRITICAL log line),
any other or absent code to `CreateFail`; every classification is one of
these four, and the failing item tags the order with the error marker
and the corresponding `PID-<id>-<class>` tag. -/
theorem remote_error_classification (pid : String) (code : Option String) :
    ((code = some "PRODUCT_NOT_FOUND" ∨ code = some "PRODUCT_SOLD_OUT"
        ∨ code = some "PRODUCT_ON_HOLD") →
      classifyBunjangOrderError pid code = "PID-" ++ pid ++ "-NotAvailable") ∧
    (code = some "INVALID_PRODUCT_PRICE" →
      classifyBunjangOrderError pid code = "PID-" ++ pid ++ "-PriceChanged") ∧
    (code = some "POINT_SHORTAGE" →
      classifyBunjangOrderError pid code = "PID-" ++ pid ++ "-InsufficientPoints") ∧
    (code ∉ ([some "PRODUCT_NOT_FOUND", some "PRODUCT_SOLD_OUT", some "PRODUCT_ON_HOLD",
        some "INVALID_PRODUCT_PRICE", some "POINT_SHORTAGE"] : List (Option String)) →
      classifyBunjangOrderError pid code = "PID-" ++ pid ++ "-CreateFail") ∧
    (∃ suffix ∈ (["-NotAvailable", "-PriceChanged", "-InsufficientPoints", "-CreateFail"] :
        List String),
      classifyBunjangOrderError pid code = "PID-" ++ pid ++ suffix) ∧
    (∀ (env : OrderEnv) (oid : Nat) (item : LineItem) (st : OrderProcState)
        (ids : List String) (r : SyncedRec) (d : BunjangDetails) (apiErr : BunjangApiError),
      findSyncedByShopifyProduct st.db item.product_id = some r →
      r.bunjangPid = some pid →
      env.getDetails pid = .ok (some d) →
      ¬ (d.quantity.getD 0 < item.quantity) →
      env.createOrder { productId := parsePid pid, price := d.price.getD 0, deliveryPrice := 0 }
        = .error apiErr →
      apiErr.errorCode = code →
      processLineItem env oid item st ids =
        (addTags { st with
            createCalls := st.createCalls
              ++ [{ productId := parsePid pid, price := d.price.getD 0, deliveryPrice := 0 }],
            criticalLogs := st.criticalLogs
              + (if code == some "POINT_SHORTAGE" then 1 else 0) }
          [env.orderIdentifierPrefix ++ toString oid ++ "_Error",
           classifyBunjangOrderError pid code], ids)) := by
  refine ⟨?_, ?_, ?_, ?_, ?_, ?_⟩
  · rintro (h | h | h) <;> (subst h; rfl)
  · intro h
    subst h
    rfl
  · intro h
    subst h
    rfl
  · intro hnot
    unfold classifyBunjangOrderError
    split
    all_goals first
    | rfl
    | exact absurd (by simp) hnot
  · unfold classifyBunjangOrderError
    split
    all_goals first
    | exact ⟨"-NotAvailable", by simp, rfl⟩
    | exact ⟨"-PriceChanged", by simp, rfl⟩
    | exact ⟨"-InsufficientPoints", by simp, rfl⟩
    | exact ⟨"-CreateFail", by simp, rfl⟩
  · intro env oid item st ids r d apiErr hf hp hd hq hc hcode
    have hstep := processLineItem_createError env oid item st ids r pid d apiErr hf hp hd hq hc
    rw [hcode] at hstep
    exact hstep

/-- Witness for C6 at a concrete input: `POINT_SHORTAGE` on listing 7
classifies as `InsufficientPoints`. -/
theorem remote_error_classification_witness :
    (some "POINT_SHORTAGE" : Option String) = some "POINT_SHORTAGE" ∧
    classifyBunjangOrderError "7" (some "POINT_SHORTAGE")
      = "PID-" ++ "7" ++ "-InsufficientPoints" :=
  ⟨rfl, (remote_error_classification "7" (some "POINT_SHORTAGE")).2.2.1 rfl⟩
